import Mathlib

/-
Shallow embedding of `src/cpp/perspective/src/cpp/table.cpp` (the `Table`
class of the perspective ingestion layer) and proofs about it.

Modelling conventions:
- machine integers are `Nat`/`Int`; the `std::int32_t` store performed by
  `set_nth<std::int32_t>` is modelled by an explicit two's-complement wrap
  (`toInt32`); the C++ `%` on unsigned operands is modelled by `cppMod`,
  which is `none` (undefined behavior) when the divisor is zero;
- `PSP_VERBOSE_ASSERT(m_init, ...)` failures are modelled as
  `t_error.UninitializedError` results (fallible code returns `Except`);
- the processing pool is an external collaborator: calls into it are
  recorded as a list of `PoolEvent`s instead of performing effects;
- the class header `table.h` is not part of the sources; the shape of the
  members is reconstructed from the constructor initializer list, and the
  few collaborator operations whose bodies are missing (`add_column`,
  `clone_column`, `raw_fill`, the `t_op` enum) are modelled from the spec
  where noted.
-/

namespace Perspective

/-- Operation tag for a whole batch.  Modelled from the spec: the enum
itself lives in the missing header; the source switches on `OP_DELETE`
with a default branch, so at least one further non-delete, non-insert
value (`OP_CLEAR`) is included to exercise that default. -/
inductive t_op where
  | OP_INSERT
  | OP_DELETE
  | OP_CLEAR
deriving DecidableEq

/-- Column data types (the subset of `t_dtype` used by `table.cpp`). -/
inductive t_dtype where
  | DTYPE_UINT8
  | DTYPE_INT32
  | DTYPE_INT64
  | DTYPE_FLOAT64
  | DTYPE_STR
deriving DecidableEq

/-- A single cell value.  `i32` cells are what `set_nth<std::int32_t>`
stores, `u8op` cells are what `raw_fill<std::uint8_t>(op)` stores, and
`str` stands for arbitrary other user data (cloned verbatim, never
inspected by this layer). -/
inductive t_cell where
  | i32 (v : Int)
  | u8op (o : t_op)
  | str (s : String)
deriving DecidableEq

/-- A column: its dtype, the `status_enabled` flag passed to
`add_column`, and its cell data. -/
structure t_column where
  dtype : t_dtype
  status_enabled : Bool
  data : List t_cell
deriving DecidableEq

/-- A schema: parallel lists of column names and types, as used by
`make_gnode` (`in_schema.columns()` / `in_schema.types()`). -/
structure t_schema where
  columns : List String
  types : List t_dtype
deriving DecidableEq

/-- Whether the schema has a column of the given name
(`t_schema::has_column`). -/
def t_schema.has_column (s : t_schema) (name : String) : Bool :=
  s.columns.contains name

/-- Index of the first column of the given name
(`t_schema::get_colidx`). -/
def t_schema.get_colidx (s : t_schema) (name : String) : Nat :=
  s.columns.indexOf name

/-- A data table (`t_data_table`): a row count plus named columns.
Modelled from the spec: a batch is "a mutable column set the assigner
augments in place with two or three synthetic columns". -/
structure t_data_table where
  nrows : Nat
  cols : List (String × t_column)
deriving DecidableEq

/-- Row count of the block (`t_data_table::size`). -/
def t_data_table.size (dt : t_data_table) : Nat := dt.nrows

/-- Schema of the block (`t_data_table::get_schema`). -/
def t_data_table.get_schema (dt : t_data_table) : t_schema :=
  { columns := dt.cols.map Prod.fst
    types := dt.cols.map (fun c => c.2.dtype) }

/-- First column of the given name, if any. -/
def t_data_table.get_column_opt (dt : t_data_table) (name : String) :
    Option t_column :=
  (dt.cols.find? (fun c => c.1 = name)).map Prod.snd

/-- Append a freshly created column holding the given data.  Modelled
from the spec: `add_column` plus the subsequent whole-column fill
(`raw_fill` / the `set_nth` loop) are embedded as appending one fully
populated column. -/
def t_data_table.add_column (dt : t_data_table) (name : String)
    (ty : t_dtype) (st : Bool) (data : List t_cell) : t_data_table :=
  { dt with cols := dt.cols ++ [(name, ⟨ty, st, data⟩)] }

/-- Copy the named column's values verbatim into a new column
(`t_data_table::clone_column`); `none` when the source column is absent.
Modelled from the spec: an absent index column is a `SchemaError`. -/
def t_data_table.clone_column (dt : t_data_table) (src dst : String) :
    Option t_data_table :=
  (dt.get_column_opt src).map
    (fun c => { dt with cols := dt.cols ++ [(dst, c)] })

/-- C++ unsigned `%`: undefined (`none`) when the divisor is zero. -/
def cppMod (a b : Nat) : Option Nat :=
  if b = 0 then none else some (a % b)

/-- Conversion of an unsigned value to `std::int32_t`: two's-complement
wrap, as performed by `set_nth<std::int32_t>`. -/
def toInt32 (v : Nat) : Int :=
  if v % 2 ^ 32 < 2 ^ 31 then ((v % 2 ^ 32 : Nat) : Int)
  else ((v % 2 ^ 32 : Nat) : Int) - 2 ^ 32

/-- Error kinds surfaced by the model: assertion failures on
uninitialized tables, undefined modulo-by-zero, and a missing index
column (`SchemaError`, modelled from the spec). -/
inductive t_error where
  | UninitializedError
  | ModuloByZero
  | SchemaError
deriving DecidableEq

/-- A dataflow node (`t_gnode`): output ("tbl") schema, input schema,
and the externally owned data block answering `get_table()`. -/
structure t_gnode where
  out_schema : t_schema
  in_schema : t_schema
  table : t_data_table
deriving DecidableEq

/-- Effects sent to the processing pool, recorded as events:
`register_gnode`, `send`, and `_process`. -/
inductive PoolEvent where
  | register (g : t_gnode)
  | send (g : t_gnode) (port : Nat) (dt : t_data_table)
  | process
deriving DecidableEq

/-- The `Table` class fields, as listed in the constructor initializer
list of `table.cpp`.  `m_offset` and `m_limit` are kept as mathematical
naturals (the spec describes the offset as an integer in `[0, limit)`);
the pool is an opaque handle. -/
structure Table where
  m_init : Bool
  m_id : Nat
  m_pool : Nat
  m_column_names : List String
  m_data_types : List t_dtype
  m_offset : Nat
  m_limit : Nat
  m_index : String
  m_gnode_set : Bool
  m_gnode : Option t_gnode
deriving DecidableEq

/-- `Table::Table`: records the arguments, assigns
`m_id = GLOBAL_TABLE_ID++` (the counter is threaded explicitly), sets
`m_offset = 0`, `m_init = false`, `m_gnode_set = false`.  No validation
of any argument is performed. -/
def Table.construct (global_table_id : Nat) (pool : Nat)
    (column_names : List String) (data_types : List t_dtype)
    (limit : Nat) (index : String) : Table × Nat :=
  ({ m_init := false
     m_id := global_table_id
     m_pool := pool
     m_column_names := column_names
     m_data_types := data_types
     m_offset := 0
     m_limit := limit
     m_index := index
     m_gnode_set := false
     m_gnode := none }, global_table_id + 1)

/-- `Table::process_op_column`: add a `psp_op` UINT8 column and
`raw_fill` it with `OP_DELETE` for a delete batch and `OP_INSERT` for
every other op value (the switch's default branch). -/
def Table.process_op_column (dt : t_data_table) (op : t_op) :
    t_data_table :=
  match op with
  | t_op.OP_DELETE =>
      dt.add_column "psp_op" t_dtype.DTYPE_UINT8 false
        (List.replicate dt.size (t_cell.u8op t_op.OP_DELETE))
  | _ =>
      dt.add_column "psp_op" t_dtype.DTYPE_UINT8 false
        (List.replicate dt.size (t_cell.u8op t_op.OP_INSERT))

/-- The loop body of `Table::process_index_column` over the listed row
indices: each row `ridx` gets `(ridx + m_offset) % m_limit`, stored as
`std::int32_t`; `none` as soon as a zero modulus is evaluated. -/
def synthKeysAux (offset limit : Nat) : List Nat → Option (List t_cell)
  | [] => some []
  | r :: rs =>
      match cppMod (r + offset) limit with
      | none => none
      | some v =>
          match synthKeysAux offset limit rs with
          | none => none
          | some rest => some (t_cell.i32 (toInt32 v) :: rest)

/-- Keys synthesized by the `process_index_column` loop for a block of
`nrows` rows. -/
def synthKeys (nrows offset limit : Nat) : Option (List t_cell) :=
  synthKeysAux offset limit (List.range nrows)

/-- `Table::process_index_column`: with an empty `m_index`, add
`psp_pkey`/`psp_okey` INT32 columns keyed by row position; otherwise
clone the user's index column verbatim into both. -/
def Table.process_index_column (t : Table) (dt : t_data_table) :
    Except t_error t_data_table :=
  if t.m_index = "" then
    match synthKeys dt.size t.m_offset t.m_limit with
    | none => Except.error t_error.ModuloByZero
    | some keys =>
        Except.ok
          ((dt.add_column "psp_pkey" t_dtype.DTYPE_INT32 true keys).add_column
            "psp_okey" t_dtype.DTYPE_INT32 true keys)
  else
    match dt.clone_column t.m_index "psp_pkey" with
    | none => Except.error t_error.SchemaError
    | some dt1 =>
        match dt1.clone_column t.m_index "psp_okey" with
        | none => Except.error t_error.SchemaError
        | some dt2 => Except.ok dt2

/-- `Table::calculate_offset`:
`m_offset = (m_offset + row_count) % m_limit`. -/
def Table.calculate_offset (t : Table) (row_count : Nat) :
    Except t_error Table :=
  match cppMod (t.m_offset + row_count) t.m_limit with
  | none => Except.error t_error.ModuloByZero
  | some o => Except.ok { t with m_offset := o }

/-- `Table::make_gnode`: copy the schema's name and type vectors, erase
the entry at `in_schema.get_colidx("psp_pkey")` when present, then erase
the entry at `in_schema.get_colidx("psp_op")` when present — note that
both indices are computed in the original `in_schema`, while the second
erasure acts on the already shortened vectors, exactly as in the
source — and build a node with the shortened output schema and the full
input schema. -/
def Table.make_gnode (in_schema : t_schema) : t_gnode :=
  let names0 := in_schema.columns
  let types0 := in_schema.types
  let names1 :=
    if in_schema.has_column "psp_pkey" then
      names0.eraseIdx (in_schema.get_colidx "psp_pkey")
    else names0
  let types1 :=
    if in_schema.has_column "psp_pkey" then
      types0.eraseIdx (in_schema.get_colidx "psp_pkey")
    else types0
  let names2 :=
    if in_schema.has_column "psp_op" then
      names1.eraseIdx (in_schema.get_colidx "psp_op")
    else names1
  let types2 :=
    if in_schema.has_column "psp_op" then
      types1.eraseIdx (in_schema.get_colidx "psp_op")
    else types1
  { out_schema := { columns := names2, types := types2 }
    in_schema := in_schema
    table := { nrows := 0, cols := [] } }

/-- `Table::set_gnode`. -/
def Table.set_gnode (t : Table) (g : t_gnode) : Table :=
  { t with m_gnode := some g, m_gnode_set := true }

/-- `Table::init`: process the op column, then the index column, then
update the offset (this order is a correctness contract stated in the
source comment); create and register a gnode when none is bound; assert
the gnode is set; send the block to the pool on port 0; mark the table
initialized.  Returns the new table state, the augmented block, and the
pool events. -/
def Table.init (t : Table) (dt : t_data_table) (row_count : Nat)
    (op : t_op) : Except t_error (Table × t_data_table × List PoolEvent) :=
  let dt1 := Table.process_op_column dt op
  match t.process_index_column dt1 with
  | Except.error e => Except.error e
  | Except.ok dt2 =>
      match t.calculate_offset row_count with
      | Except.error e => Except.error e
      | Except.ok t1 =>
          let pair :=
            if t1.m_gnode_set then (t1, ([] : List PoolEvent))
            else
              let g := Table.make_gnode dt2.get_schema
              (t1.set_gnode g, [PoolEvent.register g])
          match pair.1.m_gnode, pair.1.m_gnode_set with
          | some g, true =>
              Except.ok ({ pair.1 with m_init := true }, dt2,
                pair.2 ++ [PoolEvent.send g 0 dt2])
          | _, _ => Except.error t_error.UninitializedError

/-- `Table::replace_data_table`: assert initialized; build a brand-new
gnode from the new block's schema; bind it; register it; send the block
untouched to port 0; force `_process`. -/
def Table.replace_data_table (t : Table) (dt : t_data_table) :
    Except t_error (Table × List PoolEvent) :=
  if t.m_init then
    let g := Table.make_gnode dt.get_schema
    Except.ok (t.set_gnode g,
      [PoolEvent.register g, PoolEvent.send g 0 dt, PoolEvent.process])
  else Except.error t_error.UninitializedError

/-- `Table::size`: asserts initialization, then answers the bound
node's table size. -/
def Table.size (t : Table) : Except t_error Nat :=
  if t.m_init then
    match t.m_gnode with
    | some g => Except.ok g.table.size
    | none => Except.error t_error.UninitializedError
  else Except.error t_error.UninitializedError

/-- `Table::get_schema`: asserts initialization, then answers the bound
node's tbl schema. -/
def Table.get_schema (t : Table) : Except t_error t_schema :=
  if t.m_init then
    match t.m_gnode with
    | some g => Except.ok g.out_schema
    | none => Except.error t_error.UninitializedError
  else Except.error t_error.UninitializedError

/-- `Table::get_id`: no initialization assert; returns `m_id`. -/
def Table.get_id (t : Table) : Nat := t.m_id

/-- `Table::get_pool`: asserts initialization. -/
def Table.get_pool (t : Table) : Except t_error Nat :=
  if t.m_init then Except.ok t.m_pool
  else Except.error t_error.UninitializedError

/-- `Table::get_gnode`: asserts initialization. -/
def Table.get_gnode (t : Table) : Except t_error t_gnode :=
  if t.m_init then
    match t.m_gnode with
    | some g => Except.ok g
    | none => Except.error t_error.UninitializedError
  else Except.error t_error.UninitializedError

/-- `Table::get_column_names`: asserts initialization. -/
def Table.get_column_names (t : Table) : Except t_error (List String) :=
  if t.m_init then Except.ok t.m_column_names
  else Except.error t_error.UninitializedError

/-- `Table::get_data_types`: asserts initialization. -/
def Table.get_data_types (t : Table) : Except t_error (List t_dtype) :=
  if t.m_init then Except.ok t.m_data_types
  else Except.error t_error.UninitializedError

/-- `Table::get_index`: asserts initialization. -/
def Table.get_index (t : Table) : Except t_error String :=
  if t.m_init then Except.ok t.m_index
  else Except.error t_error.UninitializedError

/-- `Table::set_column_names`. -/
def Table.set_column_names (t : Table) (ns : List String) : Table :=
  { t with m_column_names := ns }

/-- `Table::set_data_types`. -/
def Table.set_data_types (t : Table) (tys : List t_dtype) : Table :=
  { t with m_data_types := tys }

/-- A sequence of `init` calls, each feeding the resulting table into
the next. -/
def ingestSeq (t : Table) :
    List (t_data_table × Nat × t_op) → Except t_error Table
  | [] => Except.ok t
  | s :: ss =>
      match t.init s.1 s.2.1 s.2.2 with
      | Except.error e => Except.error e
      | Except.ok r => ingestSeq r.1 ss

/-- Extract the result of a successful `init` (the unchanged inputs on
error); used to name concrete results in closed statements. -/
def initResult (t : Table) (dt : t_data_table) (rc : Nat) (op : t_op) :
    Table × t_data_table × List PoolEvent :=
  match t.init dt rc op with
  | Except.ok r => r
  | Except.error _ => (t, dt, [])

/-- Extract the result of a successful `ingestSeq` (the initial table
on error). -/
def ingestSeqResult (t : Table) (steps : List (t_data_table × Nat × t_op)) :
    Table :=
  match ingestSeq t steps with
  | Except.ok t1 => t1
  | Except.error _ => t

/-- The synthesized key list written as the specification formula: the
signed-32-bit image of `(i + offset) mod limit` for each batch position
`i`. -/
def synthKeyList (nrows offset limit : Nat) : List t_cell :=
  (List.range nrows).map (fun i => t_cell.i32 (toInt32 ((i + offset) % limit)))

/-- With a nonzero limit the key loop never hits undefined behavior and
produces exactly the specification formula. -/
theorem synthKeysAux_eq_map (offset limit : Nat) (hl : limit ≠ 0) :
    ∀ l : List Nat,
      synthKeysAux offset limit l =
        some (l.map (fun r => t_cell.i32 (toInt32 ((r + offset) % limit))))
  | [] => rfl
  | r :: rs => by
      simp [synthKeysAux, cppMod, hl, synthKeysAux_eq_map offset limit hl rs]

/-- `synthKeys` with a nonzero limit equals the specification formula
`synthKeyList`. -/
theorem synthKeys_eq (nrows offset limit : Nat) (hl : limit ≠ 0) :
    synthKeys nrows offset limit = some (synthKeyList nrows offset limit) := by
  simp [synthKeys, synthKeyList, synthKeysAux_eq_map offset limit hl]

/-- `toInt32` is injective below `2 ^ 32`. -/
theorem toInt32_inj {a b : Nat} (ha : a < 2 ^ 32) (hb : b < 2 ^ 32)
    (h : toInt32 a = toInt32 b) : a = b := by
  unfold toInt32 at h
  rw [Nat.mod_eq_of_lt ha, Nat.mod_eq_of_lt hb] at h
  by_cases h1 : a < 2 ^ 31 <;> by_cases h2 : b < 2 ^ 31 <;>
    simp [h1, h2] at h <;> omega

/-- Within a window shorter than the limit, the synthesized keys are
pairwise distinct. -/
theorem synthKeyList_nodup (nrows offset limit : Nat)
    (h32 : limit ≤ 2 ^ 32) (hn : nrows < limit) :
    (synthKeyList nrows offset limit).Nodup := by
  have hl : limit ≠ 0 := by omega
  refine List.Nodup.map_on ?_ (List.nodup_range nrows)
  intro i hi j hj hij
  rw [List.mem_range] at hi hj
  have hmods : (i + offset) % limit = (j + offset) % limit := by
    have hinj := toInt32_inj (a := (i + offset) % limit)
      (b := (j + offset) % limit) ?_ ?_ ?_
    · exact hinj
    · exact lt_of_lt_of_le (Nat.mod_lt _ (by omega)) h32
    · exact lt_of_lt_of_le (Nat.mod_lt _ (by omega)) h32
    · exact t_cell.i32.inj hij
  have hme : Nat.ModEq limit (i + offset) (j + offset) := hmods
  have hij2 : Nat.ModEq limit i j :=
    Nat.ModEq.add_right_cancel (Nat.ModEq.refl offset) hme
  have : i % limit = j % limit := hij2
  rw [Nat.mod_eq_of_lt (by omega), Nat.mod_eq_of_lt (by omega)] at this
  exact this

/-- Successful offset calculation: the limit is nonzero and the offset
becomes `(m_offset + row_count) % m_limit`, everything else unchanged. -/
theorem calculate_offset_ok {t : Table} {rc : Nat} {t1 : Table}
    (h : t.calculate_offset rc = Except.ok t1) :
    t.m_limit ≠ 0 ∧ t1 = { t with m_offset := (t.m_offset + rc) % t.m_limit } := by
  unfold Table.calculate_offset cppMod at h
  by_cases hl : t.m_limit = 0
  · simp [hl] at h
  · simp [hl] at h
    exact ⟨hl, h.symm⟩

/-- Anatomy of a successful `init`: the index column processing and the
offset update both succeeded, a gnode is bound, the table is marked
initialized, and the configuration fields are unchanged. -/
theorem init_ok_destruct {t : Table} {dt : t_data_table} {rc : Nat}
    {op : t_op} {r : Table × t_data_table × List PoolEvent}
    (h : t.init dt rc op = Except.ok r) :
    t.process_index_column (Table.process_op_column dt op) = Except.ok r.2.1 ∧
    t.m_limit ≠ 0 ∧
    r.1.m_offset = (t.m_offset + rc) % t.m_limit ∧
    r.1.m_limit = t.m_limit ∧
    r.1.m_init = true ∧
    (∃ g, r.1.m_gnode = some g) ∧
    r.1.m_id = t.m_id ∧
    r.1.m_pool = t.m_pool ∧
    r.1.m_column_names = t.m_column_names ∧
    r.1.m_data_types = t.m_data_types ∧
    r.1.m_index = t.m_index := by
  unfold Table.init at h
  dsimp only at h
  cases hpi : t.process_index_column (Table.process_op_column dt op) with
  | error e => rw [hpi] at h; exact absurd h (by simp)
  | ok dt2 =>
    rw [hpi] at h
    cases hco : t.calculate_offset rc with
    | error e => rw [hco] at h; exact absurd h (by simp)
    | ok t1 =>
      rw [hco] at h
      obtain ⟨hl, ht1⟩ := calculate_offset_ok hco
      by_cases hg : t1.m_gnode_set
      · simp only [hg, if_true] at h
        cases hgn : t1.m_gnode with
        | none => rw [hgn] at h; simp [hg] at h
        | some g =>
          rw [hgn] at h
          simp only [hg] at h
          cases h
          subst ht1
          exact ⟨rfl, hl, rfl, rfl, rfl, ⟨g, rfl⟩, rfl, rfl, rfl, rfl, rfl⟩
      · simp only [hg, if_false] at h
        simp only [Table.set_gnode] at h
        cases h
        subst ht1
        exact ⟨rfl, hl, rfl, rfl, rfl, ⟨_, rfl⟩, rfl, rfl, rfl, rfl, rfl⟩

/-- `process_op_column` appends exactly one `psp_op` column: UINT8,
filled uniformly with the delete tag for a delete batch and the insert
tag for every other op. -/
theorem process_op_column_eq (dt : t_data_table) (op : t_op) :
    Table.process_op_column dt op =
      { dt with
        cols := dt.cols ++
          [("psp_op",
            ⟨t_dtype.DTYPE_UINT8, false,
              List.replicate dt.size
                (t_cell.u8op
                  (if op = t_op.OP_DELETE then t_op.OP_DELETE
                   else t_op.OP_INSERT))⟩)] } := by
  cases op <;> simp [Table.process_op_column, t_data_table.add_column]

/-- With an empty index and a nonzero limit, `process_index_column`
appends the two synthesized key columns given by the specification
formula. -/
theorem process_index_column_empty (t : Table) (dt : t_data_table)
    (hidx : t.m_index = "") (hl : t.m_limit ≠ 0) :
    t.process_index_column dt =
      Except.ok
        ((dt.add_column "psp_pkey" t_dtype.DTYPE_INT32 true
            (synthKeyList dt.size t.m_offset t.m_limit)).add_column
          "psp_okey" t_dtype.DTYPE_INT32 true
          (synthKeyList dt.size t.m_offset t.m_limit)) := by
  simp [Table.process_index_column, hidx, synthKeys_eq dt.size t.m_offset t.m_limit hl]

/-- C1 (amended): for every successful ingest into a table whose index
column is empty, the batch gains a `psp_pkey` and a `psp_okey` column,
both equal to the list assigning row `i` the signed-32-bit
representation of `(i + offset_before) mod limit` — a function of the
batch position and the pre-update offset only — and when
`row_count < limit` (with the limit in `uint32` range) these keys are
pairwise distinct. -/
theorem table_init_synth_keys (t : Table) (dt : t_data_table) (rc : Nat)
    (op : t_op) (r : Table × t_data_table × List PoolEvent)
    (hinit : t.init dt rc op = Except.ok r) (hidx : t.m_index = "") :
    (∃ opcol,
      r.2.1.cols = dt.cols ++
        [("psp_op", opcol),
         ("psp_pkey",
           ⟨t_dtype.DTYPE_INT32, true,
             synthKeyList dt.nrows t.m_offset t.m_limit⟩),
         ("psp_okey",
           ⟨t_dtype.DTYPE_INT32, true,
             synthKeyList dt.nrows t.m_offset t.m_limit⟩)]) ∧
    (t.m_limit ≤ 2 ^ 32 → dt.nrows < t.m_limit →
      (synthKeyList dt.nrows t.m_offset t.m_limit).Nodup) := by
  obtain ⟨hpi, hl, _⟩ := init_ok_destruct hinit
  rw [process_op_column_eq dt op,
    process_index_column_empty t _ hidx hl] at hpi
  have hr := Except.ok.inj hpi
  refine ⟨⟨⟨t_dtype.DTYPE_UINT8, false,
      List.replicate dt.size
        (t_cell.u8op
          (if op = t_op.OP_DELETE then t_op.OP_DELETE
           else t_op.OP_INSERT))⟩, ?_⟩,
    fun h32 hn => synthKeyList_nodup _ _ _ h32 hn⟩
  rw [← hr]
  simp [t_data_table.add_column, t_data_table.size]

/-- C1, concrete table and batches for the counterexample: an unkeyed
table at the `uint32` sentinel limit, driven to offset `2 ^ 31` by a
first ingest, then fed a one-row batch. -/
def cxTable0 : Table :=
  (Table.construct 0 0 ["x"] [t_dtype.DTYPE_INT32] 4294967295 "").1

/-- C1 counterexample data: an empty block. -/
def cxEmptyDT : t_data_table :=
  ⟨0, [("x", ⟨t_dtype.DTYPE_INT32, true, []⟩)]⟩

/-- C1 counterexample data: the table after the offset-advancing
ingest. -/
def cxTable1 : Table :=
  (initResult cxTable0 cxEmptyDT 2147483648 t_op.OP_INSERT).1

/-- C1 counterexample data: a one-row block. -/
def cxDT : t_data_table :=
  ⟨1, [("x", ⟨t_dtype.DTYPE_INT32, true, [t_cell.i32 7]⟩)]⟩

/-- C1 counterexample data: the result of ingesting the one-row block. -/
def cxR : Table × t_data_table × List PoolEvent :=
  initResult cxTable1 cxDT 1 t_op.OP_INSERT

/-- C1 is false as stated: at offset `2 ^ 31` under limit
`2 ^ 32 - 1`, the row at position `0` has mathematical key
`(0 + 2 ^ 31) mod (2 ^ 32 - 1) = 2147483648`, but the code stores the
wrapped signed cell `-2147483648` in both key columns. -/
theorem table_synth_key_counterexample :
    cxTable0.init cxEmptyDT 2147483648 t_op.OP_INSERT =
      Except.ok (initResult cxTable0 cxEmptyDT 2147483648 t_op.OP_INSERT) ∧
    cxTable1.m_offset = 2147483648 ∧
    cxTable1.m_limit = 4294967295 ∧
    cxTable1.m_index = "" ∧
    cxTable1.init cxDT 1 t_op.OP_INSERT = Except.ok cxR ∧
    cxR.2.1.get_column_opt "psp_pkey" =
      some ⟨t_dtype.DTYPE_INT32, true, [t_cell.i32 (-2147483648)]⟩ ∧
    cxR.2.1.get_column_opt "psp_okey" =
      some ⟨t_dtype.DTYPE_INT32, true, [t_cell.i32 (-2147483648)]⟩ ∧
    (0 + cxTable1.m_offset) % cxTable1.m_limit = 2147483648 ∧
    t_cell.i32 (-2147483648) ≠ t_cell.i32 ((2147483648 : Nat) : Int) :=
  ⟨rfl, rfl, rfl, rfl, rfl, rfl, rfl, rfl, by decide⟩

/-- Concrete witness data shared by several witnesses: a fresh unkeyed
table with limit `5`. -/
def w1Table : Table :=
  (Table.construct 0 0 ["x"] [t_dtype.DTYPE_INT32] 5 "").1

/-- Concrete witness data: a three-row batch. -/
def w1DT : t_data_table :=
  ⟨3, [("x", ⟨t_dtype.DTYPE_INT32, true,
    [t_cell.i32 7, t_cell.i32 8, t_cell.i32 9]⟩)]⟩

/-- C1 witness: the amended statement evaluated on a three-row batch
into a fresh unkeyed table with limit `5`. -/
theorem table_init_synth_keys_witness :
    w1Table.init w1DT 3 t_op.OP_INSERT =
      Except.ok (initResult w1Table w1DT 3 t_op.OP_INSERT) ∧
    ((∃ opcol,
      (initResult w1Table w1DT 3 t_op.OP_INSERT).2.1.cols = w1DT.cols ++
        [("psp_op", opcol),
         ("psp_pkey",
           ⟨t_dtype.DTYPE_INT32, true,
             synthKeyList w1DT.nrows w1Table.m_offset w1Table.m_limit⟩),
         ("psp_okey",
           ⟨t_dtype.DTYPE_INT32, true,
             synthKeyList w1DT.nrows w1Table.m_offset w1Table.m_limit⟩)]) ∧
    (w1Table.m_limit ≤ 2 ^ 32 → w1DT.nrows < w1Table.m_limit →
      (synthKeyList w1DT.nrows w1Table.m_offset w1Table.m_limit).Nodup)) :=
  ⟨rfl, table_init_synth_keys w1Table w1DT 3 t_op.OP_INSERT _ rfl rfl⟩

/-- Offsets accumulate modularly across a successful ingest sequence:
if the starting offset is a fixed point of `% m_limit`, the final
offset is the starting offset plus all row counts, modulo the limit,
and the limit never changes. -/
theorem ingestSeq_offset :
    ∀ (steps : List (t_data_table × Nat × t_op)) (t t1 : Table),
      t.m_offset % t.m_limit = t.m_offset →
      ingestSeq t steps = Except.ok t1 →
      t1.m_offset =
        (t.m_offset + (steps.map (fun s => s.2.1)).sum) % t.m_limit ∧
      t1.m_limit = t.m_limit
  | [], t, t1, hfix, h => by
      cases h
      simpa using hfix.symm
  | s :: ss, t, t1, hfix, h => by
      unfold ingestSeq at h
      cases hstep : t.init s.1 s.2.1 s.2.2 with
      | error e => rw [hstep] at h; exact absurd h (by simp)
      | ok r =>
        rw [hstep] at h
        obtain ⟨-, hl, hoff, hlim, -⟩ := init_ok_destruct hstep
        have hfix2 : r.1.m_offset % r.1.m_limit = r.1.m_offset := by
          rw [hoff, hlim, Nat.mod_mod_of_dvd _ dvd_rfl]
        obtain ⟨h1, h2⟩ := ingestSeq_offset ss r.1 t1 hfix2 h
        rw [hlim] at h2
        refine ⟨?_, h2⟩
        rw [h1, hoff, hlim, Nat.mod_add_mod]
        simp [List.map_cons, List.sum_cons, Nat.add_assoc]

/-- C2: a successful ingest of `row_count` rows updates the offset to
`(offset_before + row_count) mod limit`, keeps the limit, and leaves
the offset strictly below the limit; and any successful ingest sequence
starting from offset `0` whose cumulative row count is `k * limit` ends
with offset `0`. -/
theorem table_offset_ring :
    (∀ (t : Table) (dt : t_data_table) (rc : Nat) (op : t_op)
        (r : Table × t_data_table × List PoolEvent),
      t.init dt rc op = Except.ok r →
      r.1.m_offset = (t.m_offset + rc) % t.m_limit ∧
      r.1.m_limit = t.m_limit ∧
      r.1.m_offset < t.m_limit) ∧
    (∀ (t : Table) (steps : List (t_data_table × Nat × t_op))
        (t1 : Table) (k : Nat),
      t.m_offset = 0 →
      ingestSeq t steps = Except.ok t1 →
      (steps.map (fun s => s.2.1)).sum = k * t.m_limit →
      t1.m_offset = 0) := by
  constructor
  · intro t dt rc op r h
    obtain ⟨-, hl, hoff, hlim, -⟩ := init_ok_destruct h
    exact ⟨hoff, hlim, hoff ▸ Nat.mod_lt _ (Nat.pos_of_ne_zero hl)⟩
  · intro t steps t1 k h0 hseq hsum
    obtain ⟨h1, -⟩ :=
      ingestSeq_offset steps t t1 (by rw [h0, Nat.zero_mod]) hseq
    rw [h1, h0, Nat.zero_add, hsum, Nat.mul_mod_left]

/-- Concrete witness data: a two-row batch. -/
def w2DT : t_data_table :=
  ⟨2, [("x", ⟨t_dtype.DTYPE_INT32, true, [t_cell.i32 1, t_cell.i32 2]⟩)]⟩

/-- C2 witness: one ingest of three rows into the limit-5 table moves
the offset to `3 < 5`; ingesting `3 + 2 = 1 * 5` rows in two batches
from offset `0` returns the offset to `0`. -/
theorem table_offset_ring_witness :
    ((initResult w1Table w1DT 3 t_op.OP_INSERT).1.m_offset =
        (w1Table.m_offset + 3) % w1Table.m_limit ∧
      (initResult w1Table w1DT 3 t_op.OP_INSERT).1.m_offset <
        w1Table.m_limit) ∧
    (ingestSeqResult w1Table
        [(w1DT, 3, t_op.OP_INSERT), (w2DT, 2, t_op.OP_INSERT)]).m_offset = 0 := by
  constructor
  · have h := table_offset_ring.1 w1Table w1DT 3 t_op.OP_INSERT
      (initResult w1Table w1DT 3 t_op.OP_INSERT) rfl
    exact ⟨h.1, h.2.2⟩
  · exact table_offset_ring.2 w1Table
      [(w1DT, 3, t_op.OP_INSERT), (w2DT, 2, t_op.OP_INSERT)]
      (ingestSeqResult w1Table
        [(w1DT, 3, t_op.OP_INSERT), (w2DT, 2, t_op.OP_INSERT)]) 1
      rfl rfl (by decide)

/-- C3: constructing a table with `limit = 0` performs no validation at
all — the constructor returns a table with `m_limit = 0`, not yet
initialized, having merely bumped the id counter — and the very first
ingest then evaluates a modulo-by-zero (undefined behavior in the
source, surfaced as `ModuloByZero` in the model) instead of any
configuration error at construction time. -/
theorem table_limit_zero_not_validated :
    ((Table.construct 7 0 ["x"] [t_dtype.DTYPE_INT32] 0 "").1.m_limit = 0 ∧
     (Table.construct 7 0 ["x"] [t_dtype.DTYPE_INT32] 0 "").1.m_init = false ∧
     (Table.construct 7 0 ["x"] [t_dtype.DTYPE_INT32] 0 "").2 = 8) ∧
    (Table.construct 7 0 ["x"] [t_dtype.DTYPE_INT32] 0 "").1.init
        ⟨1, [("x", ⟨t_dtype.DTYPE_INT32, true, [t_cell.i32 1]⟩)]⟩ 1
        t_op.OP_INSERT =
      Except.error t_error.ModuloByZero :=
  ⟨⟨rfl, rfl, rfl⟩, rfl⟩

/-- C4: `replace_data_table` on an uninitialized table fails with
`UninitializedError`; on an initialized table it succeeds, binds a
brand-new gnode built from the new block's schema, registers it, sends
the block itself — untouched by the op-tag or key-assignment steps — to
port `0`, forces synchronous processing last, and leaves the id, the
declared column names and types, the limit, the offset, and the index
unchanged. -/
theorem table_replace_data_table_spec (t : Table) (dt : t_data_table) :
    (t.m_init = false →
      t.replace_data_table dt = Except.error t_error.UninitializedError) ∧
    (t.m_init = true →
      ∃ t1 evs, t.replace_data_table dt = Except.ok (t1, evs) ∧
        t1.m_id = t.m_id ∧
        t1.m_column_names = t.m_column_names ∧
        t1.m_data_types = t.m_data_types ∧
        t1.m_limit = t.m_limit ∧
        t1.m_offset = t.m_offset ∧
        t1.m_index = t.m_index ∧
        t1.m_init = true ∧
        t1.m_gnode = some (Table.make_gnode dt.get_schema) ∧
        evs = [PoolEvent.register (Table.make_gnode dt.get_schema),
               PoolEvent.send (Table.make_gnode dt.get_schema) 0 dt,
               PoolEvent.process]) := by
  constructor
  · intro h
    simp [Table.replace_data_table, h]
  · intro h
    refine ⟨t.set_gnode (Table.make_gnode dt.get_schema), _,
      by simp [Table.replace_data_table, h], rfl, rfl, rfl, rfl, rfl, rfl,
      ?_, rfl, rfl⟩
    simpa [Table.set_gnode] using h

/-- Concrete witness data: an initialized table obtained by one
successful ingest into the limit-5 table. -/
def wInitTable : Table := (initResult w1Table w1DT 3 t_op.OP_INSERT).1

/-- Concrete witness data: a replacement block with its own schema. -/
def wNewDT : t_data_table :=
  ⟨2, [("y", ⟨t_dtype.DTYPE_INT64, true, [t_cell.i32 4, t_cell.i32 5]⟩)]⟩

/-- C4 witness: replacing on the never-initialized table fails with
`UninitializedError`; replacing on the initialized table succeeds with
the stated binding, events, and preserved fields. -/
theorem table_replace_data_table_witness :
    (w1Table.replace_data_table wNewDT =
      Except.error t_error.UninitializedError) ∧
    (∃ t1 evs, wInitTable.replace_data_table wNewDT = Except.ok (t1, evs) ∧
      t1.m_id = wInitTable.m_id ∧
      t1.m_column_names = wInitTable.m_column_names ∧
      t1.m_data_types = wInitTable.m_data_types ∧
      t1.m_limit = wInitTable.m_limit ∧
      t1.m_offset = wInitTable.m_offset ∧
      t1.m_index = wInitTable.m_index ∧
      t1.m_init = true ∧
      t1.m_gnode = some (Table.make_gnode wNewDT.get_schema) ∧
      evs = [PoolEvent.register (Table.make_gnode wNewDT.get_schema),
             PoolEvent.send (Table.make_gnode wNewDT.get_schema) 0 wNewDT,
             PoolEvent.process]) :=
  ⟨(table_replace_data_table_spec w1Table wNewDT).1 rfl,
   (table_replace_data_table_spec wInitTable wNewDT).2 rfl⟩

/-- C5: for every successful ingest into a table with a non-empty index
column present in the batch, the `psp_pkey` and `psp_okey` columns are
both the verbatim clone of that column — dtype, flags, and every cell
value unchanged, with no hypothesis on (and hence no validation of)
uniqueness of its values. -/
theorem table_index_column_cloned (t : Table) (dt : t_data_table)
    (rc : Nat) (op : t_op) (c : t_column)
    (hidx : t.m_index ≠ "")
    (hcol : dt.get_column_opt t.m_index = some c)
    (hl : t.m_limit ≠ 0)
    (hwf : t.m_gnode_set = true → ∃ g, t.m_gnode = some g) :
    ∃ r, t.init dt rc op = Except.ok r ∧
      ∃ opcol, r.2.1.cols = dt.cols ++
        [("psp_op", opcol), ("psp_pkey", c), ("psp_okey", c)] := by
  obtain ⟨pr, hpr, hprc⟩ :
      ∃ pr, dt.cols.find? (fun c0 => c0.1 = t.m_index) = some pr ∧
        pr.2 = c := by
    unfold t_data_table.get_column_opt at hcol
    cases hf : dt.cols.find? (fun c0 => c0.1 = t.m_index) with
    | none => rw [hf] at hcol; exact absurd hcol (by simp)
    | some pr =>
        rw [hf] at hcol
        exact ⟨pr, rfl, by simpa using hcol⟩
  have hpi : t.process_index_column (Table.process_op_column dt op) =
      Except.ok ⟨dt.nrows, (dt.cols ++
        [("psp_op",
          ⟨t_dtype.DTYPE_UINT8, false,
            List.replicate dt.size
              (t_cell.u8op
                (if op = t_op.OP_DELETE then t_op.OP_DELETE
                 else t_op.OP_INSERT))⟩)] ++
        [("psp_pkey", c)] ++ [("psp_okey", c)])⟩ := by
    rw [process_op_column_eq dt op]
    simp only [Table.process_index_column, hidx, if_neg hidx,
      t_data_table.clone_column, t_data_table.get_column_opt,
      List.find?_append, hpr, Option.or, Option.map_some]
    simp [hpr, hprc, Option.or]
  unfold Table.init
  dsimp only
  rw [hpi]
  simp only [Table.calculate_offset, cppMod, hl, if_neg hl]
  by_cases hgs : t.m_gnode_set
  · obtain ⟨g, hg⟩ := hwf hgs
    simp only [hgs, if_true, hg]
    exact ⟨_, rfl,
      ⟨t_dtype.DTYPE_UINT8, false,
        List.replicate dt.size
          (t_cell.u8op
            (if op = t_op.OP_DELETE then t_op.OP_DELETE
             else t_op.OP_INSERT))⟩, by simp⟩
  · simp only [hgs, if_false, Table.set_gnode]
    exact ⟨_, rfl,
      ⟨t_dtype.DTYPE_UINT8, false,
        List.replicate dt.size
          (t_cell.u8op
            (if op = t_op.OP_DELETE then t_op.OP_DELETE
             else t_op.OP_INSERT))⟩, by simp⟩

/-- Concrete witness data: a keyed table whose index column is `"id"`. -/
def w5Table : Table :=
  (Table.construct 0 0 ["id"] [t_dtype.DTYPE_INT32] 100 "id").1

/-- Concrete witness data: a batch whose `"id"` column holds
`[10, 11, 12]`. -/
def w5DT : t_data_table :=
  ⟨3, [("id", ⟨t_dtype.DTYPE_INT32, true,
    [t_cell.i32 10, t_cell.i32 11, t_cell.i32 12]⟩)]⟩

/-- C5 witness: ingesting with index column `"id"` holding
`[10, 11, 12]` clones that column verbatim into `psp_pkey` and
`psp_okey`. -/
theorem table_index_column_cloned_witness :
    ∃ r, w5Table.init w5DT 3 t_op.OP_INSERT = Except.ok r ∧
      ∃ opcol, r.2.1.cols = w5DT.cols ++
        [("psp_op", opcol),
         ("psp_pkey",
           ⟨t_dtype.DTYPE_INT32, true,
             [t_cell.i32 10, t_cell.i32 11, t_cell.i32 12]⟩),
         ("psp_okey",
           ⟨t_dtype.DTYPE_INT32, true,
             [t_cell.i32 10, t_cell.i32 11, t_cell.i32 12]⟩)] :=
  table_index_column_cloned w5Table w5DT 3 t_op.OP_INSERT
    ⟨t_dtype.DTYPE_INT32, true,
      [t_cell.i32 10, t_cell.i32 11, t_cell.i32 12]⟩
    (by decide) rfl (by decide) (by intro h; exact absurd h (by decide))

/-- C6: `process_op_column` appends a single uniformly filled UINT8
`psp_op` column of the batch's size — the delete tag exactly when the
caller requested a delete batch and the insert tag for every other op
value — for every batch size, with no per-row variation. -/
theorem table_op_column_uniform (dt : t_data_table) (op : t_op) :
    ∃ c : t_column,
      Table.process_op_column dt op =
        { dt with cols := dt.cols ++ [("psp_op", c)] } ∧
      c.dtype = t_dtype.DTYPE_UINT8 ∧
      c.data.length = dt.size ∧
      (∀ x ∈ c.data,
        x = t_cell.u8op
          (if op = t_op.OP_DELETE then t_op.OP_DELETE
           else t_op.OP_INSERT)) := by
  refine ⟨_, process_op_column_eq dt op, rfl, by simp, ?_⟩
  intro x hx
  exact List.eq_of_mem_replicate hx

/-- C6 witness: a one-row delete batch gets a uniform `psp_op` column
holding exactly the delete tag. -/
theorem table_op_column_uniform_witness :
    ∃ c : t_column,
      Table.process_op_column w1DT t_op.OP_DELETE =
        { w1DT with cols := w1DT.cols ++ [("psp_op", c)] } ∧
      c.dtype = t_dtype.DTYPE_UINT8 ∧
      c.data.length = w1DT.size ∧
      (∀ x ∈ c.data,
        x = t_cell.u8op
          (if t_op.OP_DELETE = t_op.OP_DELETE then t_op.OP_DELETE
           else t_op.OP_INSERT)) :=
  table_op_column_uniform w1DT t_op.OP_DELETE

/-- C7: the input schema is retained by the constructed node, but the
output schema is NOT always the input minus the synthetic columns: on
the schema `[psp_pkey, psp_op, x]` the second erasure uses the index of
`psp_op` computed in the original schema after `psp_pkey` has already
been removed, so the user column `x` is erased and `psp_op` survives —
the claimed output `[x]` is not produced. -/
theorem make_gnode_stale_colidx :
    (Table.make_gnode
        ⟨["psp_pkey", "psp_op", "x"],
         [t_dtype.DTYPE_INT32, t_dtype.DTYPE_UINT8,
          t_dtype.DTYPE_INT32]⟩).in_schema =
      ⟨["psp_pkey", "psp_op", "x"],
       [t_dtype.DTYPE_INT32, t_dtype.DTYPE_UINT8, t_dtype.DTYPE_INT32]⟩ ∧
    (Table.make_gnode
        ⟨["psp_pkey", "psp_op", "x"],
         [t_dtype.DTYPE_INT32, t_dtype.DTYPE_UINT8,
          t_dtype.DTYPE_INT32]⟩).out_schema =
      ⟨["psp_op"], [t_dtype.DTYPE_UINT8]⟩ ∧
    (Table.make_gnode
        ⟨["psp_pkey", "psp_op", "x"],
         [t_dtype.DTYPE_INT32, t_dtype.DTYPE_UINT8,
          t_dtype.DTYPE_INT32]⟩).out_schema ≠
      ⟨["x"], [t_dtype.DTYPE_INT32]⟩ :=
  ⟨rfl, rfl, by decide⟩

/-- C8: every guarded accessor — `size`, `get_schema`, `get_pool`,
`get_gnode`, `get_column_names`, `get_data_types`, `get_index` — fails
with `UninitializedError` on a table whose init flag is unset, and each
succeeds on the table produced by any successful first ingest. -/
theorem table_accessors_guarded :
    (∀ t : Table, t.m_init = false →
      t.size = Except.error t_error.UninitializedError ∧
      t.get_schema = Except.error t_error.UninitializedError ∧
      t.get_pool = Except.error t_error.UninitializedError ∧
      t.get_gnode = Except.error t_error.UninitializedError ∧
      t.get_column_names = Except.error t_error.UninitializedError ∧
      t.get_data_types = Except.error t_error.UninitializedError ∧
      t.get_index = Except.error t_error.UninitializedError) ∧
    (∀ (t : Table) (dt : t_data_table) (rc : Nat) (op : t_op)
        (r : Table × t_data_table × List PoolEvent),
      t.init dt rc op = Except.ok r →
      (∃ v, r.1.size = Except.ok v) ∧
      (∃ v, r.1.get_schema = Except.ok v) ∧
      (∃ v, r.1.get_pool = Except.ok v) ∧
      (∃ v, r.1.get_gnode = Except.ok v) ∧
      (∃ v, r.1.get_column_names = Except.ok v) ∧
      (∃ v, r.1.get_data_types = Except.ok v) ∧
      (∃ v, r.1.get_index = Except.ok v)) := by
  constructor
  · intro t h
    refine ⟨?_, ?_, ?_, ?_, ?_, ?_, ?_⟩ <;>
      simp [Table.size, Table.get_schema, Table.get_pool, Table.get_gnode,
        Table.get_column_names, Table.get_data_types, Table.get_index, h]
  · intro t dt rc op r h
    obtain ⟨-, -, -, -, hini, ⟨g, hg⟩, -⟩ := init_ok_destruct h
    refine ⟨⟨g.table.size, ?_⟩, ⟨g.out_schema, ?_⟩, ⟨r.1.m_pool, ?_⟩,
      ⟨g, ?_⟩, ⟨r.1.m_column_names, ?_⟩, ⟨r.1.m_data_types, ?_⟩,
      ⟨r.1.m_index, ?_⟩⟩ <;>
      simp [Table.size, Table.get_schema, Table.get_pool, Table.get_gnode,
        Table.get_column_names, Table.get_data_types, Table.get_index,
        hini, hg]

/-- C8 witness: on the freshly constructed limit-5 table all seven
accessors fail with `UninitializedError`; after its first successful
ingest all seven succeed. -/
theorem table_accessors_guarded_witness :
    (w1Table.size = Except.error t_error.UninitializedError ∧
     w1Table.get_schema = Except.error t_error.UninitializedError ∧
     w1Table.get_pool = Except.error t_error.UninitializedError ∧
     w1Table.get_gnode = Except.error t_error.UninitializedError ∧
     w1Table.get_column_names = Except.error t_error.UninitializedError ∧
     w1Table.get_data_types = Except.error t_error.UninitializedError ∧
     w1Table.get_index = Except.error t_error.UninitializedError) ∧
    ((∃ v, wInitTable.size = Except.ok v) ∧
     (∃ v, wInitTable.get_schema = Except.ok v) ∧
     (∃ v, wInitTable.get_pool = Except.ok v) ∧
     (∃ v, wInitTable.get_gnode = Except.ok v) ∧
     (∃ v, wInitTable.get_column_names = Except.ok v) ∧
     (∃ v, wInitTable.get_data_types = Except.ok v) ∧
     (∃ v, wInitTable.get_index = Except.ok v)) :=
  ⟨table_accessors_guarded.1 w1Table rfl,
   table_accessors_guarded.2 w1Table w1DT 3 t_op.OP_INSERT
     (initResult w1Table w1DT 3 t_op.OP_INSERT) rfl⟩

/-- C9: `get_id` carries no initialization guard — it returns `m_id`
on every table, including never-initialized ones; the constructor
assigns the current value of the global counter as the id and bumps the
counter (so successive constructions get distinct ids), and every
operation — ingest, replacement, the column-name/type setters, and
`set_gnode` — leaves the id unchanged. -/
theorem table_get_id_total_and_stable :
    (∀ (c p : Nat) (ns : List String) (tys : List t_dtype) (lim : Nat)
        (idx : String),
      (Table.construct c p ns tys lim idx).1.get_id = c ∧
      (Table.construct c p ns tys lim idx).1.m_init = false ∧
      (Table.construct c p ns tys lim idx).2 = c + 1 ∧
      (Table.construct (Table.construct c p ns tys lim idx).2
          p ns tys lim idx).1.get_id ≠
        (Table.construct c p ns tys lim idx).1.get_id) ∧
    (∀ t : Table, t.get_id = t.m_id) ∧
    (∀ (t : Table) (dt : t_data_table) (rc : Nat) (op : t_op)
        (r : Table × t_data_table × List PoolEvent),
      t.init dt rc op = Except.ok r → r.1.get_id = t.get_id) ∧
    (∀ (t : Table) (dt : t_data_table)
        (r : Table × List PoolEvent),
      t.replace_data_table dt = Except.ok r → r.1.get_id = t.get_id) ∧
    (∀ (t : Table) (ns : List String),
      (t.set_column_names ns).get_id = t.get_id) ∧
    (∀ (t : Table) (tys : List t_dtype),
      (t.set_data_types tys).get_id = t.get_id) ∧
    (∀ (t : Table) (g : t_gnode), (t.set_gnode g).get_id = t.get_id) := by
  refine ⟨fun c p ns tys lim idx => ⟨rfl, rfl, rfl, by simp [Table.construct, Table.get_id]⟩,
    fun t => rfl, ?_, ?_, fun t ns => rfl, fun t tys => rfl,
    fun t g => rfl⟩
  · intro t dt rc op r h
    obtain ⟨-, -, -, -, -, -, hid, -⟩ := init_ok_destruct h
    exact hid
  · intro t dt r h
    unfold Table.replace_data_table at h
    by_cases hi : t.m_init
    · simp only [hi, if_true] at h
      cases h
      rfl
    · simp [hi] at h

/-- C9 witness: the table constructed with counter `0` has id `0` even
though it was never initialized, the bumped counter yields a distinct
id for the next table, and ingest, replacement, and the setters all
preserve the id. -/
theorem table_get_id_total_and_stable_witness :
    (w1Table.get_id = 0 ∧ w1Table.m_init = false) ∧
    ((Table.construct 0 0 ["x"] [t_dtype.DTYPE_INT32] 5 "").2 = 1 ∧
      (Table.construct 1 0 ["x"] [t_dtype.DTYPE_INT32] 5 "").1.get_id ≠
        w1Table.get_id) ∧
    (initResult w1Table w1DT 3 t_op.OP_INSERT).1.get_id = w1Table.get_id ∧
    (w1Table.set_column_names ["z"]).get_id = w1Table.get_id ∧
    (w1Table.set_data_types [t_dtype.DTYPE_STR]).get_id = w1Table.get_id := by
  refine ⟨⟨?_, ?_⟩, ⟨?_, ?_⟩, ?_, ?_, ?_⟩
  · exact (table_get_id_total_and_stable.1 0 0 ["x"]
      [t_dtype.DTYPE_INT32] 5 "").1
  · exact (table_get_id_total_and_stable.1 0 0 ["x"]
      [t_dtype.DTYPE_INT32] 5 "").2.1
  · exact (table_get_id_total_and_stable.1 0 0 ["x"]
      [t_dtype.DTYPE_INT32] 5 "").2.2.1
  · exact (table_get_id_total_and_stable.1 0 0 ["x"]
      [t_dtype.DTYPE_INT32] 5 "").2.2.2
  · exact table_get_id_total_and_stable.2.2.1 w1Table w1DT 3
      t_op.OP_INSERT (initResult w1Table w1DT 3 t_op.OP_INSERT) rfl
  · exact table_get_id_total_and_stable.2.2.2.2.1 w1Table ["z"]
  · exact table_get_id_total_and_stable.2.2.2.2.2.1 w1Table
      [t_dtype.DTYPE_STR]

/-- C10: when the limit fits in `uint32` but exceeds `2 ^ 31`, any
synthesized key whose mathematical value `(i + offset) mod limit`
reaches `2 ^ 31` is stored in the INT32 `psp_pkey` column as the
wrapped negative value — the mathematical value minus `2 ^ 32` — which
differs from the mathematical key. -/
theorem table_synth_key_int32_wrap (t : Table) (dt : t_data_table)
    (rc : Nat) (op : t_op)
    (r : Table × t_data_table × List PoolEvent) (i : Nat)
    (hinit : t.init dt rc op = Except.ok r)
    (hidx : t.m_index = "")
    (hnopkey : dt.get_column_opt "psp_pkey" = none)
    (h32 : t.m_limit < 2 ^ 32)
    (hi : i < dt.nrows)
    (hbig : 2 ^ 31 ≤ (i + t.m_offset) % t.m_limit) :
    ∃ cpk : t_column,
      r.2.1.get_column_opt "psp_pkey" = some cpk ∧
      cpk.data[i]? = some (t_cell.i32
        ((((i + t.m_offset) % t.m_limit : Nat) : Int) - 2 ^ 32)) ∧
      ((((i + t.m_offset) % t.m_limit : Nat) : Int) - 2 ^ 32) < 0 ∧
      t_cell.i32 ((((i + t.m_offset) % t.m_limit : Nat) : Int) - 2 ^ 32) ≠
        t_cell.i32 (((i + t.m_offset) % t.m_limit : Nat) : Int) := by
  obtain ⟨hpi, hl, -⟩ := init_ok_destruct hinit
  rw [process_op_column_eq dt op,
    process_index_column_empty t _ hidx hl] at hpi
  have hr := Except.ok.inj hpi
  have hfind : dt.cols.find? (fun c0 => c0.1 = "psp_pkey") = none := by
    unfold t_data_table.get_column_opt at hnopkey
    exact Option.map_eq_none.mp hnopkey
  have hv : (i + t.m_offset) % t.m_limit < 2 ^ 32 :=
    lt_trans (Nat.mod_lt _ (Nat.pos_of_ne_zero hl)) h32
  have hwrap : toInt32 ((i + t.m_offset) % t.m_limit) =
      (((i + t.m_offset) % t.m_limit : Nat) : Int) - 2 ^ 32 := by
    unfold toInt32
    rw [Nat.mod_eq_of_lt hv, if_neg (by omega)]
  refine ⟨⟨t_dtype.DTYPE_INT32, true,
    synthKeyList dt.nrows t.m_offset t.m_limit⟩, ?_, ?_, ?_, ?_⟩
  · rw [← hr]
    simp only [t_data_table.add_column, t_data_table.get_column_opt,
      t_data_table.size]
    rw [List.append_assoc, List.append_assoc, List.find?_append, hfind]
    simp [Option.or]
  · simp [synthKeyList, List.getElem?_map, List.getElem?_range hi, hwrap]
  · have : ((((i + t.m_offset) % t.m_limit : Nat) : Int)) < 2 ^ 32 := by
      exact_mod_cast hv
    omega
  · intro h
    have h2 := t_cell.i32.inj h
    have h3 : (0 : Int) ≤ (((i + t.m_offset) % t.m_limit : Nat) : Int) :=
      Int.natCast_nonneg _
    have : ((((i + t.m_offset) % t.m_limit : Nat) : Int)) < 2 ^ 32 := by
      exact_mod_cast hv
    omega

/-- Concrete witness data: an unkeyed table at the `uint32` sentinel
limit whose offset already stands at `2 ^ 31`. -/
def w10Table : Table :=
  { m_init := false, m_id := 3, m_pool := 0, m_column_names := ["x"],
    m_data_types := [t_dtype.DTYPE_INT32], m_offset := 2147483648,
    m_limit := 4294967295, m_index := "", m_gnode_set := false,
    m_gnode := none }

/-- Concrete witness data: a one-row batch for the wrap witness. -/
def w10DT : t_data_table :=
  ⟨1, [("x", ⟨t_dtype.DTYPE_INT32, true, [t_cell.i32 5]⟩)]⟩

/-- C10 witness: at offset `2 ^ 31` under limit `2 ^ 32 - 1` the first
row's mathematical key `2147483648` is stored as the wrapped cell
`-2147483648`. -/
theorem table_synth_key_int32_wrap_witness :
    w10Table.init w10DT 1 t_op.OP_INSERT =
      Except.ok (initResult w10Table w10DT 1 t_op.OP_INSERT) ∧
    (∃ cpk : t_column,
      (initResult w10Table w10DT 1 t_op.OP_INSERT).2.1.get_column_opt
          "psp_pkey" = some cpk ∧
      cpk.data[0]? = some (t_cell.i32
        ((((0 + w10Table.m_offset) % w10Table.m_limit : Nat) : Int) -
          2 ^ 32)) ∧
      ((((0 + w10Table.m_offset) % w10Table.m_limit : Nat) : Int) -
        2 ^ 32) < 0 ∧
      t_cell.i32
          ((((0 + w10Table.m_offset) % w10Table.m_limit : Nat) : Int) -
            2 ^ 32) ≠
        t_cell.i32
          (((0 + w10Table.m_offset) % w10Table.m_limit : Nat) : Int)) :=
  ⟨rfl, table_synth_key_int32_wrap w10Table w10DT 1 t_op.OP_INSERT
    (initResult w10Table w10DT 1 t_op.OP_INSERT) 0 rfl rfl rfl
    (by decide) (by decide) (by decide)⟩

end Perspective
